import Mathlib

/-!
Verification development for the libmicrohttpd core excerpt.

The sources embedded here are `src/lib/internal.h` (the data model and
state-machine declarations of the library) and
`src/testcurl/test_get_close_keep_alive.c` (the keep-alive / close
behaviour test).  The implementation files of the library (connection
driver, memory pool, response emission) are not part of the excerpt;
wherever a definition stands in for such a missing function it is
modelled from the specification's words and its doc comment says so.
-/

namespace MHD

/-- ASCII lower-casing of a single character: `A`..`Z` map to `a`..`z`,
everything else is unchanged (HTTP header names and `Connection` tokens
are compared case-insensitively, cf. `strncasecmp` in the test). -/
def asciiLower (c : Char) : Char :=
  if 'A' ≤ c ∧ c ≤ 'Z' then Char.ofNat (c.toNat + 32) else c

/-- Case-insensitive canonical form of a header name or token. -/
def lowerStr (s : String) : String :=
  String.mk (s.toList.map asciiLower)

/-- Embedded from `struct MHD_HTTP_Header` of internal.h: a header is a
(name, value) pair; the `next` pointer of the C struct is represented by
the position in a Lean list, the `kind` field is irrelevant to the
claims and omitted. -/
structure MHD_HTTP_Header where
  header : String
  value : String
deriving DecidableEq, Repr

/-- Does the header list carry the given `Connection` token?  Modelled
after the test's check (`lcurl_hdr_callback`): the header name
`Connection` and the token are matched case-insensitively; each list
entry carries one token. -/
def hasConnectionToken (hs : List MHD_HTTP_Header) (tok : String) : Bool :=
  hs.any fun h => (lowerStr h.header == "connection") && (lowerStr h.value == lowerStr tok)

/-- Embedded from `enum MHD_ConnKeepAlive` of internal.h. -/
inductive MHD_ConnKeepAlive
  | MHD_CONN_MUST_CLOSE
  | MHD_CONN_KEEPALIVE_UNKOWN
  | MHD_CONN_USE_KEEPALIVE
deriving DecidableEq, Repr

/-- The integer values the C enum assigns to the three keep-alive
states (-1, 0, 1). -/
def connKeepAliveVal : MHD_ConnKeepAlive → Int
  | .MHD_CONN_MUST_CLOSE => -1
  | .MHD_CONN_KEEPALIVE_UNKOWN => 0
  | .MHD_CONN_USE_KEEPALIVE => 1

/-- Modelled from the spec: the keep-alive decision function of the
connection driver (the C function computing it is not part of the
excerpt).  "HTTP/1.1 default = keep-alive unless any `Connection:
close` token appears in request or response; HTTP/1.0 default = close
unless `Connection: keep-alive` appears in both", with the close token
winning over a simultaneous keep-alive token.  `respHeaders` are the
headers the application put on the queued response; for HTTP/1.0 the
server itself echoes `Connection: keep-alive` (see
`responseAutoConnectionHeader`), which makes the token appear in both
directions whenever the decision is keep-alive. -/
def keepAliveDisposition (isHttp11 : Bool) (reqHeaders respHeaders : List MHD_HTTP_Header) :
    MHD_ConnKeepAlive :=
  if hasConnectionToken reqHeaders "close" || hasConnectionToken respHeaders "close" then
    .MHD_CONN_MUST_CLOSE
  else if isHttp11 then
    .MHD_CONN_USE_KEEPALIVE
  else if hasConnectionToken reqHeaders "keep-alive" then
    .MHD_CONN_USE_KEEPALIVE
  else
    .MHD_CONN_MUST_CLOSE

/-- Modelled from the spec: is the TCP socket closed once the response
has been fully sent?  Exactly when the disposition is not keep-alive. -/
def socketClosedAfterResponse (k : MHD_ConnKeepAlive) : Bool :=
  match k with
  | .MHD_CONN_USE_KEEPALIVE => false
  | _ => true

/-- Modelled from the spec: the `Connection` header the server itself
adds to the response.  A close disposition is announced with
`Connection: close`; a keep-alive disposition is announced with
`Connection: keep-alive` on HTTP/1.0 (where close is the default) and
with no explicit header on HTTP/1.1 (where keep-alive is the
default). -/
def responseAutoConnectionHeader (isHttp11 : Bool) (k : MHD_ConnKeepAlive) :
    List MHD_HTTP_Header :=
  match k with
  | .MHD_CONN_USE_KEEPALIVE =>
      if isHttp11 then [] else [⟨"Connection", "keep-alive"⟩]
  | _ => [⟨"Connection", "close"⟩]

/-- Modelled from the spec: the headers of the emitted response are the
application-supplied headers followed by the server's automatic
`Connection` header. -/
def emittedResponseHeaders (isHttp11 : Bool) (reqHeaders handlerHeaders : List MHD_HTTP_Header) :
    List MHD_HTTP_Header :=
  handlerHeaders ++
    responseAutoConnectionHeader isHttp11 (keepAliveDisposition isHttp11 reqHeaders handlerHeaders)

/-- Modelled from the spec: number of connections the daemon still
tracks once the response has been sent (the quantity
`getMhdActiveConnections` observes in the test under external
polling): 1 if the connection is kept alive, 0 if it was closed. -/
def activeConnectionsAfterResponse (k : MHD_ConnKeepAlive) : Nat :=
  if k = .MHD_CONN_USE_KEEPALIVE then 1 else 0

/-- Embedded from the test: the `Connection: close` request/response
header (`HDR_CONN_CLOSE`). -/
def HDR_CONN_CLOSE : MHD_HTTP_Header := ⟨"Connection", "close"⟩

/-- Embedded from the test: the `Connection: keep-alive` header
(`HDR_CONN_KEEP_ALIVE`). -/
def HDR_CONN_KEEP_ALIVE : MHD_HTTP_Header := ⟨"Connection", "keep-alive"⟩

/-- Embedded from the test (`curlEasyInitForTest` / `test_global_init`):
the `Connection` headers the client attaches to its request.  When both
are requested, libcurl sends first `keep-alive` then `close`
(`curl_both_hdrs` is built in that order). -/
def clientRequestHeaders (addHdrClose addHdrKAlive : Bool) : List MHD_HTTP_Header :=
  match addHdrClose, addHdrKAlive with
  | true, true => [HDR_CONN_KEEP_ALIVE, HDR_CONN_CLOSE]
  | true, false => [HDR_CONN_CLOSE]
  | false, true => [HDR_CONN_KEEP_ALIVE]
  | false, false => []

/-- Embedded from the test (`ahc_echo`): the headers the MHD-side
handler adds to the response: `Connection: close` when `add_mhd_close`
is set, nothing otherwise. -/
def mhdHandlerHeaders (addMhdClose : Bool) : List MHD_HTTP_Header :=
  if addMhdClose then [HDR_CONN_CLOSE] else []

/-- One parameter row of the test: HTTP version flag and the three
header toggles (`oneone`, `add_hdr_close`, `add_hdr_k_alive`,
`add_mhd_close`). -/
structure TestCase where
  oneone : Bool
  addHdrClose : Bool
  addHdrKAlive : Bool
  addMhdClose : Bool
deriving DecidableEq, Repr

/-- Embedded from `performTestQueries` (test source): the cases run when
the test binary expects `close` behaviour (`conn_close` set).  The
no-preferences case is run only for HTTP/1.0 (where close is the
default). -/
def closeModeCases (oo : Bool) : List TestCase :=
  (if oo then [] else [⟨oo, false, false, false⟩]) ++
    [⟨oo, true, false, false⟩, ⟨oo, true, true, false⟩, ⟨oo, false, false, true⟩,
     ⟨oo, true, false, true⟩, ⟨oo, false, true, true⟩, ⟨oo, true, true, true⟩]

/-- Embedded from `performTestQueries` (test source): the cases run when
the test binary expects keep-alive behaviour.  The no-preferences case
is run only for HTTP/1.1 (where keep-alive is the default). -/
def keepAliveModeCases (oo : Bool) : List TestCase :=
  (if oo then [⟨oo, false, false, false⟩] else []) ++ [⟨oo, false, true, false⟩]

/-- The keep-alive disposition the modelled server computes on a test
case. -/
def testDisposition (tc : TestCase) : MHD_ConnKeepAlive :=
  keepAliveDisposition tc.oneone (clientRequestHeaders tc.addHdrClose tc.addHdrKAlive)
    (mhdHandlerHeaders tc.addMhdClose)

/-- The response headers the modelled server emits on a test case. -/
def testEmittedHeaders (tc : TestCase) : List MHD_HTTP_Header :=
  emittedResponseHeaders tc.oneone (clientRequestHeaders tc.addHdrClose tc.addHdrKAlive)
    (mhdHandlerHeaders tc.addMhdClose)

/-- Embedded from `doCurlQueryInThread` (test source), `conn_close`
branch: the response must carry `Connection: close`, must not carry
`Connection: keep-alive`, and under external polling the daemon must
report zero active connections afterwards. -/
def closeExpectation (tc : TestCase) : Bool :=
  hasConnectionToken (testEmittedHeaders tc) "close" &&
    !hasConnectionToken (testEmittedHeaders tc) "keep-alive" &&
    (activeConnectionsAfterResponse (testDisposition tc) == 0)

/-- Embedded from `doCurlQueryInThread` (test source), keep-alive
branch: for HTTP/1.0 the response must carry `Connection: keep-alive`;
the response must not carry `Connection: close`; the daemon must report
exactly one active connection afterwards. -/
def keepAliveExpectation (tc : TestCase) : Bool :=
  (tc.oneone || hasConnectionToken (testEmittedHeaders tc) "keep-alive") &&
    !hasConnectionToken (testEmittedHeaders tc) "close" &&
    (activeConnectionsAfterResponse (testDisposition tc) == 1)

/-- Embedded from `enum MHD_REQUEST_STATE` of internal.h: the states of
the per-request state machine, in declaration order.  The constant
`MHD_REQUEST_UPGRADE` is declared under `#ifdef UPGRADE_SUPPORT`; it is
included here, and the theorems that count states without upgrade
support filter it out. -/
inductive MHD_REQUEST_STATE
  | MHD_REQUEST_INIT
  | MHD_REQUEST_URL_RECEIVED
  | MHD_REQUEST_HEADER_PART_RECEIVED
  | MHD_REQUEST_HEADERS_RECEIVED
  | MHD_REQUEST_HEADERS_PROCESSED
  | MHD_REQUEST_CONTINUE_SENDING
  | MHD_REQUEST_CONTINUE_SENT
  | MHD_REQUEST_BODY_RECEIVED
  | MHD_REQUEST_FOOTER_PART_RECEIVED
  | MHD_REQUEST_FOOTERS_RECEIVED
  | MHD_REQUEST_HEADERS_SENDING
  | MHD_REQUEST_HEADERS_SENT
  | MHD_REQUEST_NORMAL_BODY_READY
  | MHD_REQUEST_NORMAL_BODY_UNREADY
  | MHD_REQUEST_CHUNKED_BODY_READY
  | MHD_REQUEST_CHUNKED_BODY_UNREADY
  | MHD_REQUEST_BODY_SENT
  | MHD_REQUEST_FOOTERS_SENDING
  | MHD_REQUEST_FOOTERS_SENT
  | MHD_REQUEST_CLOSED
  | MHD_REQUEST_IN_CLEANUP
  | MHD_REQUEST_UPGRADE
deriving DecidableEq, Repr, Fintype

open MHD_REQUEST_STATE

/-- The numeric value the C enum assigns to each state (internal.h
assigns 0 to `MHD_REQUEST_INIT` and `previous + 1` to each following
constant; `MHD_REQUEST_UPGRADE`, when compiled in, follows
`MHD_REQUEST_IN_CLEANUP`). -/
def requestStateNum : MHD_REQUEST_STATE → Nat
  | MHD_REQUEST_INIT => 0
  | MHD_REQUEST_URL_RECEIVED => 1
  | MHD_REQUEST_HEADER_PART_RECEIVED => 2
  | MHD_REQUEST_HEADERS_RECEIVED => 3
  | MHD_REQUEST_HEADERS_PROCESSED => 4
  | MHD_REQUEST_CONTINUE_SENDING => 5
  | MHD_REQUEST_CONTINUE_SENT => 6
  | MHD_REQUEST_BODY_RECEIVED => 7
  | MHD_REQUEST_FOOTER_PART_RECEIVED => 8
  | MHD_REQUEST_FOOTERS_RECEIVED => 9
  | MHD_REQUEST_HEADERS_SENDING => 10
  | MHD_REQUEST_HEADERS_SENT => 11
  | MHD_REQUEST_NORMAL_BODY_READY => 12
  | MHD_REQUEST_NORMAL_BODY_UNREADY => 13
  | MHD_REQUEST_CHUNKED_BODY_READY => 14
  | MHD_REQUEST_CHUNKED_BODY_UNREADY => 15
  | MHD_REQUEST_BODY_SENT => 16
  | MHD_REQUEST_FOOTERS_SENDING => 17
  | MHD_REQUEST_FOOTERS_SENT => 18
  | MHD_REQUEST_CLOSED => 19
  | MHD_REQUEST_IN_CLEANUP => 20
  | MHD_REQUEST_UPGRADE => 21

/-- Modelled from the spec: the successor states of each request state
(the `idle` driver that realizes them is not part of the excerpt).  The
model keeps the ordinary `state + 1` exit of every state up to
`MHD_REQUEST_CLOSED`, the keep-alive reset `FOOTERS_SENT → INIT`, the
fatal exit `s → CLOSED` from every state that is not already being torn
down, the upgrade hand-off `HEADERS_SENT → UPGRADE`, and the two parser
returns the spec states explicitly: a continuation line terminated by
CRLF not followed by whitespace sends `HEADER_PART_RECEIVED` back to
`URL_RECEIVED`, and the trailer states mirror the header-parsing rules,
sending `FOOTER_PART_RECEIVED` back to `BODY_RECEIVED`.
`MHD_REQUEST_IN_CLEANUP` (the request is only to be freed) and the
`UPGRADE` sink have no successors. -/
def nextStates : MHD_REQUEST_STATE → List MHD_REQUEST_STATE
  | MHD_REQUEST_INIT => [MHD_REQUEST_URL_RECEIVED, MHD_REQUEST_CLOSED]
  | MHD_REQUEST_URL_RECEIVED => [MHD_REQUEST_HEADER_PART_RECEIVED, MHD_REQUEST_CLOSED]
  | MHD_REQUEST_HEADER_PART_RECEIVED =>
      [MHD_REQUEST_HEADERS_RECEIVED, MHD_REQUEST_URL_RECEIVED, MHD_REQUEST_CLOSED]
  | MHD_REQUEST_HEADERS_RECEIVED => [MHD_REQUEST_HEADERS_PROCESSED, MHD_REQUEST_CLOSED]
  | MHD_REQUEST_HEADERS_PROCESSED => [MHD_REQUEST_CONTINUE_SENDING, MHD_REQUEST_CLOSED]
  | MHD_REQUEST_CONTINUE_SENDING => [MHD_REQUEST_CONTINUE_SENT, MHD_REQUEST_CLOSED]
  | MHD_REQUEST_CONTINUE_SENT => [MHD_REQUEST_BODY_RECEIVED, MHD_REQUEST_CLOSED]
  | MHD_REQUEST_BODY_RECEIVED => [MHD_REQUEST_FOOTER_PART_RECEIVED, MHD_REQUEST_CLOSED]
  | MHD_REQUEST_FOOTER_PART_RECEIVED =>
      [MHD_REQUEST_FOOTERS_RECEIVED, MHD_REQUEST_BODY_RECEIVED, MHD_REQUEST_CLOSED]
  | MHD_REQUEST_FOOTERS_RECEIVED => [MHD_REQUEST_HEADERS_SENDING, MHD_REQUEST_CLOSED]
  | MHD_REQUEST_HEADERS_SENDING => [MHD_REQUEST_HEADERS_SENT, MHD_REQUEST_CLOSED]
  | MHD_REQUEST_HEADERS_SENT =>
      [MHD_REQUEST_NORMAL_BODY_READY, MHD_REQUEST_UPGRADE, MHD_REQUEST_CLOSED]
  | MHD_REQUEST_NORMAL_BODY_READY => [MHD_REQUEST_NORMAL_BODY_UNREADY, MHD_REQUEST_CLOSED]
  | MHD_REQUEST_NORMAL_BODY_UNREADY => [MHD_REQUEST_CHUNKED_BODY_READY, MHD_REQUEST_CLOSED]
  | MHD_REQUEST_CHUNKED_BODY_READY => [MHD_REQUEST_CHUNKED_BODY_UNREADY, MHD_REQUEST_CLOSED]
  | MHD_REQUEST_CHUNKED_BODY_UNREADY => [MHD_REQUEST_BODY_SENT, MHD_REQUEST_CLOSED]
  | MHD_REQUEST_BODY_SENT => [MHD_REQUEST_FOOTERS_SENDING, MHD_REQUEST_CLOSED]
  | MHD_REQUEST_FOOTERS_SENDING => [MHD_REQUEST_FOOTERS_SENT, MHD_REQUEST_CLOSED]
  | MHD_REQUEST_FOOTERS_SENT => [MHD_REQUEST_CLOSED, MHD_REQUEST_INIT]
  | MHD_REQUEST_CLOSED => [MHD_REQUEST_IN_CLEANUP]
  | MHD_REQUEST_IN_CLEANUP => []
  | MHD_REQUEST_UPGRADE => []

/-- The four transition shapes claimed for the request state machine:
numeric successor, keep-alive reset, any-to-closed, and the upgrade
hand-off. -/
def fourShapeTransition (s t : MHD_REQUEST_STATE) : Prop :=
  requestStateNum t = requestStateNum s + 1 ∨
    (s = MHD_REQUEST_FOOTERS_SENT ∧ t = MHD_REQUEST_INIT) ∨
    t = MHD_REQUEST_CLOSED ∨
    (s = MHD_REQUEST_HEADERS_SENT ∧ t = MHD_REQUEST_UPGRADE)

instance (s t : MHD_REQUEST_STATE) : Decidable (fourShapeTransition s t) :=
  inferInstanceAs (Decidable
    (requestStateNum t = requestStateNum s + 1 ∨
      (s = MHD_REQUEST_FOOTERS_SENT ∧ t = MHD_REQUEST_INIT) ∨
      t = MHD_REQUEST_CLOSED ∨
      (s = MHD_REQUEST_HEADERS_SENT ∧ t = MHD_REQUEST_UPGRADE)))

/-- Modelled from the source doc comment on `MHD_Request.pool`
(internal.h): the per-connection pool lifecycle.  "The memory pool is
created whenever we first read from the TCP stream and destroyed at the
end of each request (and re-created for the next request).  In the
meantime, this pointer is NULL."  `pool` is the identity (generation
number) of the live pool, `none` between requests; `created` counts the
pool acquisitions performed on the connection so far. -/
structure PoolLifecycle where
  pool : Option Nat
  created : Nat
deriving DecidableEq, Repr

/-- The two pool-lifecycle events of the doc comment: the first read of
a request from the TCP stream, and the end of a request. -/
inductive PoolEvent
  | firstRead
  | requestEnd
deriving DecidableEq, Repr

/-- Modelled from the source doc comment on `MHD_Request.pool`
(internal.h): a first read creates a pool when none is live; the end of
a request destroys the pool (the pointer becomes NULL), so the pool a
later first read creates is a fresh acquisition. -/
def poolStep (s : PoolLifecycle) : PoolEvent → PoolLifecycle
  | .firstRead =>
      match s.pool with
      | none => { pool := some s.created, created := s.created + 1 }
      | some _ => s
  | .requestEnd => { pool := none, created := s.created }

/-- A freshly accepted connection: no pool yet, none ever created. -/
def poolInitial : PoolLifecycle := ⟨none, 0⟩

/-- The pool lifecycle state after a sequence of events on one
connection. -/
def poolRun (es : List PoolEvent) : PoolLifecycle :=
  es.foldl poolStep poolInitial

/-- Embedded from `struct MHD_Request` of internal.h: the request keeps
`headers_received` together with a tail pointer `headers_received_tail`,
so a parsed header is appended at the tail of the list. -/
def requestAddHeader (l : List MHD_HTTP_Header) (h : MHD_HTTP_Header) : List MHD_HTTP_Header :=
  l ++ [h]

/-- Embedded from `struct MHD_Response` of internal.h: "Initially the
linked list is created in inverse order; the order should be inverted
before sending!" — adding a response header links the new entry in
front of `first_header`. -/
def responseAddHeader (l : List MHD_HTTP_Header) (h : MHD_HTTP_Header) : List MHD_HTTP_Header :=
  h :: l

/-- Embedded from `struct MHD_Request` of internal.h: the five buffer
cursors of a request (sizes and offsets of the read and write
buffers). -/
structure ReqBuffers where
  read_buffer_size : Nat
  read_buffer_offset : Nat
  write_buffer_size : Nat
  write_buffer_send_offset : Nat
  write_buffer_append_offset : Nat
deriving DecidableEq, Repr

/-- Modelled from the spec: the operations of the library that touch
the buffer cursors.  `recvBytes` is `handle_read` appending received
bytes at the tail of the read buffer; `consumeRead` is the parser
removing processed bytes from the front; `growReadBuffer` and
`growWriteBuffer` grow a buffer inside the pool; `appendWrite`
serializes response data into the write buffer; `sendWrite` is
`handle_write` draining from the send offset; `resetBuffers` is the
keep-alive reset that re-initializes the request in place. -/
inductive BufOp
  | recvBytes (n : Nat)
  | consumeRead (n : Nat)
  | growReadBuffer (n : Nat)
  | growWriteBuffer (n : Nat)
  | appendWrite (n : Nat)
  | sendWrite (n : Nat)
  | resetBuffers
deriving DecidableEq, Repr

/-- Modelled from the spec: effect of each buffer operation on the
cursors.  Receives and appends are clipped at the enclosing size;
sends are clipped at the append offset (it is only safe to send up to
there). -/
def applyBufOp (b : ReqBuffers) : BufOp → ReqBuffers
  | .recvBytes n =>
      { b with read_buffer_offset := min (b.read_buffer_offset + n) b.read_buffer_size }
  | .consumeRead n => { b with read_buffer_offset := b.read_buffer_offset - n }
  | .growReadBuffer n => { b with read_buffer_size := b.read_buffer_size + n }
  | .growWriteBuffer n => { b with write_buffer_size := b.write_buffer_size + n }
  | .appendWrite n =>
      { b with
        write_buffer_append_offset := min (b.write_buffer_append_offset + n) b.write_buffer_size }
  | .sendWrite n =>
      { b with
        write_buffer_send_offset := min (b.write_buffer_send_offset + n) b.write_buffer_append_offset }
  | .resetBuffers => ⟨0, 0, 0, 0, 0⟩

/-- The buffer-cursor invariant of the spec:
`read_buffer_offset ≤ read_buffer_size` and
`write_buffer_send_offset ≤ write_buffer_append_offset ≤
write_buffer_size`. -/
def bufInv (b : ReqBuffers) : Prop :=
  b.read_buffer_offset ≤ b.read_buffer_size ∧
    b.write_buffer_send_offset ≤ b.write_buffer_append_offset ∧
    b.write_buffer_append_offset ≤ b.write_buffer_size

/-- A fresh request: all cursors zero. -/
def bufInitial : ReqBuffers := ⟨0, 0, 0, 0, 0⟩

/-- The buffer state after a sequence of operations on a fresh
request. -/
def runBufOps (ops : List BufOp) : ReqBuffers :=
  ops.foldl applyBufOp bufInitial

/-- Embedded from the doc comment on `MHD_Request.keepalive`
(internal.h): "Functions may change value from Unknown or KeepAlive to
Must close, but no functions reset value Must Close to any other
value."  A single library operation's effect on the field is admissible
exactly when it does not revert `MHD_CONN_MUST_CLOSE`. -/
def keepaliveAllowedStep (old new : MHD_ConnKeepAlive) : Prop :=
  old = .MHD_CONN_MUST_CLOSE → new = .MHD_CONN_MUST_CLOSE

instance (old new : MHD_ConnKeepAlive) : Decidable (keepaliveAllowedStep old new) :=
  inferInstanceAs (Decidable
    (old = .MHD_CONN_MUST_CLOSE → new = .MHD_CONN_MUST_CLOSE))

/-- Embedded from `struct MHD_Request` of internal.h: the parser
scratch fields `last` (the last incomplete header line) and `colon`
(position after the colon on that line). -/
structure ParserScratch where
  last : String
  colon : Nat
deriving DecidableEq, Repr

/-- Is the character linear whitespace (the start of a folded header
continuation line)? -/
def isLws (c : Char) : Bool :=
  (c == ' ') || (c == '\t')

/-- Modelled from the spec: the header-line processing step of the
parser.  In `HEADER_PART_RECEIVED` and `FOOTER_PART_RECEIVED` a line
starting with whitespace is a folded continuation and is concatenated
onto `last` (and an empty tail means the pending line stands alone); in
every other state the line is parsed afresh and the scratch fields are
not consulted. -/
def processHeaderLine (st : MHD_REQUEST_STATE) (scratch : ParserScratch) (line : String) :
    String :=
  if st = MHD_REQUEST_HEADER_PART_RECEIVED ∨ st = MHD_REQUEST_FOOTER_PART_RECEIVED then
    match line.toList with
    | [] => scratch.last
    | c :: _ => if isLws c then scratch.last ++ line else line
  else line

/-- The per-request application context (`con_cls` / the `unused`
argument of `ahc_echo` in the test): initially the null pointer; the
test's handler stores the address of its static `ptr` to mark the
second invocation, and clears it back to null when it queues the
response. -/
inductive ConCls
  | null
  | ptr
deriving DecidableEq, Repr

/-- What one invocation of the request-dispatch callback returns: the
`MHD_YES`/`MHD_NO` result, whether a response was queued during the
invocation, and the context value stored back into `con_cls`. -/
structure AhcEchoResult where
  result : Bool
  queued : Bool
  cls : ConCls
deriving DecidableEq, Repr

/-- Embedded from `ahc_echo` of the test source: on a method mismatch
the handler returns `MHD_NO`; when `con_cls` still holds its initial
null value the handler stores `&ptr` and defers with `MHD_YES` without
queuing; when `con_cls` holds `&ptr` the handler clears it, queues the
response and returns the result of `MHD_queue_response`
(`MHD_YES`). -/
def ahcEcho (methodMatches : Bool) (cls : ConCls) : AhcEchoResult :=
  if !methodMatches then ⟨false, false, cls⟩
  else
    match cls with
    | .null => ⟨true, false, .ptr⟩
    | .ptr => ⟨true, true, .null⟩

/-- Modelled from the spec: the library's dispatch loop (the driver
invoking `MHD_RequestCallback` is not part of the excerpt).  It invokes
the handler repeatedly, preserving the stored `con_cls` value between
invocations, until an invocation queues a response; it returns the
total number of invocations performed, or `none` if the fuel runs
out. -/
def dispatchRun (fuel : Nat) (cls : ConCls) (count : Nat) : Option (Nat × ConCls) :=
  match fuel with
  | 0 => none
  | f + 1 =>
      let r := ahcEcho true cls
      if r.queued then some (count + 1, r.cls) else dispatchRun f r.cls (count + 1)

theorem hasConnectionToken_append (l1 l2 : List MHD_HTTP_Header) (tok : String) :
    hasConnectionToken (l1 ++ l2) tok =
      (hasConnectionToken l1 tok || hasConnectionToken l2 tok) := by
  simp [hasConnectionToken]

theorem hasConnectionToken_ka_lit :
    hasConnectionToken [⟨"Connection", "keep-alive"⟩] "keep-alive" = true := by
  decide

theorem hasConnectionToken_close_lit :
    hasConnectionToken [⟨"Connection", "close"⟩] "close" = true := by
  decide

theorem hasConnectionToken_close_not_ka :
    hasConnectionToken [⟨"Connection", "close"⟩] "keep-alive" = false := by
  decide

theorem hasConnectionToken_ka_not_close :
    hasConnectionToken [⟨"Connection", "keep-alive"⟩] "close" = false := by
  decide

theorem mhdHandlerHeaders_no_ka (b : Bool) :
    hasConnectionToken (mhdHandlerHeaders b) "keep-alive" = false := by
  cases b <;> decide

/-- C1: for every request, the keep-alive disposition is a function of
the HTTP version and the `Connection` tokens of request and response:
HTTP/1.1 keeps alive exactly when no `close` token appears on either
side; HTTP/1.0 keeps alive exactly when no `close` token appears and
the client sent `keep-alive` (the token then also appears in the
emitted response, i.e. in both); a request carrying both `close` and
`keep-alive` is treated as close and the socket is closed after the
response; on the request/response combinations of the test matrix the
disposition is close resp. keep-alive as `performTestQueries`
expects. -/
theorem claim1_keepalive_decision :
    ∀ reqHs respHs : List MHD_HTTP_Header,
      (keepAliveDisposition true reqHs respHs = .MHD_CONN_USE_KEEPALIVE ↔
        hasConnectionToken reqHs "close" = false ∧
          hasConnectionToken respHs "close" = false) ∧
      (keepAliveDisposition false reqHs respHs = .MHD_CONN_USE_KEEPALIVE ↔
        hasConnectionToken reqHs "close" = false ∧
          hasConnectionToken respHs "close" = false ∧
          hasConnectionToken reqHs "keep-alive" = true) ∧
      (hasConnectionToken reqHs "close" = true →
        hasConnectionToken reqHs "keep-alive" = true →
        ∀ v : Bool,
          keepAliveDisposition v reqHs respHs = .MHD_CONN_MUST_CLOSE ∧
            socketClosedAfterResponse (keepAliveDisposition v reqHs respHs) = true) ∧
      (keepAliveDisposition false reqHs respHs = .MHD_CONN_USE_KEEPALIVE →
        hasConnectionToken reqHs "keep-alive" = true ∧
          hasConnectionToken (emittedResponseHeaders false reqHs respHs) "keep-alive" = true) ∧
      (∀ oo : Bool, ∀ tc ∈ closeModeCases oo, testDisposition tc = .MHD_CONN_MUST_CLOSE) ∧
      (∀ oo : Bool, ∀ tc ∈ keepAliveModeCases oo, testDisposition tc = .MHD_CONN_USE_KEEPALIVE) := by
  intro reqHs respHs
  refine ⟨?_, ?_, ?_, ?_, by decide, by decide⟩ <;>
    cases hrc : hasConnectionToken reqHs "close" <;>
    cases hsc : hasConnectionToken respHs "close" <;>
    cases hka : hasConnectionToken reqHs "keep-alive" <;>
    simp [keepAliveDisposition, hrc, hsc, hka, socketClosedAfterResponse,
      emittedResponseHeaders, responseAutoConnectionHeader, hasConnectionToken_append,
      hasConnectionToken_ka_lit]

/-- Witness for C1: the concrete request of the test that carries both
`Connection: keep-alive` and `Connection: close` is treated as close
and the socket is closed after the response (HTTP/1.0 instance). -/
theorem claim1_keepalive_decision_witness :
    keepAliveDisposition false [HDR_CONN_KEEP_ALIVE, HDR_CONN_CLOSE] [] =
        .MHD_CONN_MUST_CLOSE ∧
      socketClosedAfterResponse
        (keepAliveDisposition false [HDR_CONN_KEEP_ALIVE, HDR_CONN_CLOSE] []) = true :=
  (claim1_keepalive_decision [HDR_CONN_KEEP_ALIVE, HDR_CONN_CLOSE] []).2.2.1
    (by decide) (by decide) false

/-- C2: the `Connection` header of the emitted response reflects the
keep-alive disposition.  With the test's handler headers
(`Connection: close` when `add_mhd_close`, nothing otherwise) and an
arbitrary client request: a close disposition puts `Connection: close`
and never `Connection: keep-alive` on the response; an HTTP/1.1
request without client `Connection` tokens and no handler `close` gets
a keep-alive disposition, a response without `Connection: close`, an
open socket and one active connection afterwards; on HTTP/1.0 the
response carries `Connection: keep-alive` only if the client sent the
token, and without that token the socket is closed after the response;
the full test matrix of `performTestQueries` meets the expectations
checked in `doCurlQueryInThread`. -/
theorem claim2_response_connection_header :
    ∀ (oo b : Bool) (reqHs : List MHD_HTTP_Header),
      (keepAliveDisposition oo reqHs (mhdHandlerHeaders b) = .MHD_CONN_MUST_CLOSE →
        hasConnectionToken (emittedResponseHeaders oo reqHs (mhdHandlerHeaders b)) "close" =
            true ∧
          hasConnectionToken (emittedResponseHeaders oo reqHs (mhdHandlerHeaders b))
              "keep-alive" = false) ∧
      (oo = true → b = false →
        hasConnectionToken reqHs "close" = false →
        hasConnectionToken reqHs "keep-alive" = false →
        keepAliveDisposition oo reqHs (mhdHandlerHeaders b) = .MHD_CONN_USE_KEEPALIVE ∧
          hasConnectionToken (emittedResponseHeaders oo reqHs (mhdHandlerHeaders b)) "close" =
              false ∧
          socketClosedAfterResponse (keepAliveDisposition oo reqHs (mhdHandlerHeaders b)) =
              false ∧
          activeConnectionsAfterResponse (keepAliveDisposition oo reqHs (mhdHandlerHeaders b)) =
              1) ∧
      (oo = false →
        (hasConnectionToken (emittedResponseHeaders oo reqHs (mhdHandlerHeaders b))
              "keep-alive" = true →
          hasConnectionToken reqHs "keep-alive" = true) ∧
          (hasConnectionToken reqHs "keep-alive" = false →
            socketClosedAfterResponse (keepAliveDisposition oo reqHs (mhdHandlerHeaders b)) =
              true)) ∧
      (∀ oo2 : Bool, ∀ tc ∈ closeModeCases oo2, closeExpectation tc = true) ∧
      (∀ oo2 : Bool, ∀ tc ∈ keepAliveModeCases oo2, keepAliveExpectation tc = true) := by
  intro oo b reqHs
  refine ⟨?_, ?_, ?_, by decide, by decide⟩ <;>
    cases oo <;>
    cases b <;>
    cases hrc : hasConnectionToken reqHs "close" <;>
    cases hka : hasConnectionToken reqHs "keep-alive" <;>
    simp [keepAliveDisposition, hrc, hka, socketClosedAfterResponse,
      activeConnectionsAfterResponse, emittedResponseHeaders, responseAutoConnectionHeader,
      mhdHandlerHeaders, hasConnectionToken_append, hasConnectionToken_ka_lit,
      hasConnectionToken_close_lit, hasConnectionToken_close_not_ka,
      hasConnectionToken_ka_not_close] <;>
    decide

/-- Witness for C2: concrete HTTP/1.0 request without a `keep-alive`
token (and no handler header): the socket is closed after the
response. -/
theorem claim2_response_connection_header_witness :
    socketClosedAfterResponse
        (keepAliveDisposition false [] (mhdHandlerHeaders false)) = true :=
  ((claim2_response_connection_header false false []).2.2.1 rfl).2 (by decide)

/-- C3: the `keepalive` field moves monotonically toward
`MHD_CONN_MUST_CLOSE`: a single admissible operation may move `UNKNOWN`
or `KEEP_ALIVE` to `MUST_CLOSE`, no admissible operation leaves
`MUST_CLOSE`, and along any sequence of admissible operations every
value after the first `MUST_CLOSE` is again `MUST_CLOSE`. -/
theorem claim3_keepalive_monotone :
    keepaliveAllowedStep .MHD_CONN_KEEPALIVE_UNKOWN .MHD_CONN_MUST_CLOSE ∧
      keepaliveAllowedStep .MHD_CONN_USE_KEEPALIVE .MHD_CONN_MUST_CLOSE ∧
      (∀ old new : MHD_ConnKeepAlive,
        keepaliveAllowedStep old new → old = .MHD_CONN_MUST_CLOSE →
          new = .MHD_CONN_MUST_CLOSE) ∧
      ∀ (l : List MHD_ConnKeepAlive) (start : MHD_ConnKeepAlive),
        List.Chain keepaliveAllowedStep start l → start = .MHD_CONN_MUST_CLOSE →
          ∀ x ∈ l, x = .MHD_CONN_MUST_CLOSE := by
  refine ⟨by decide, by decide, fun old new h h0 => h h0, ?_⟩
  intro l
  induction l with
  | nil => intro start _ _ x hx; cases hx
  | cons a l ih =>
      intro start hchain hstart x hx
      rw [List.chain_cons] at hchain
      have ha : a = .MHD_CONN_MUST_CLOSE := hchain.1 hstart
      cases hx with
      | head => exact ha
      | tail _ hx2 => exact ih a hchain.2 ha x hx2

/-- Witness for C3: a concrete two-step trace starting at
`MUST_CLOSE`; applying the monotonicity theorem shows its last entry is
still `MUST_CLOSE`. -/
theorem claim3_keepalive_monotone_witness :
    (.MHD_CONN_MUST_CLOSE : MHD_ConnKeepAlive) = .MHD_CONN_MUST_CLOSE :=
  claim3_keepalive_monotone.2.2.2 [.MHD_CONN_MUST_CLOSE, .MHD_CONN_MUST_CLOSE]
    .MHD_CONN_MUST_CLOSE
    (List.Chain.cons (fun _ => rfl) (List.Chain.cons (fun _ => rfl) List.Chain.nil))
    rfl .MHD_CONN_MUST_CLOSE (by decide)

/-- C4 counterexample: the parser return `HEADER_PART_RECEIVED →
URL_RECEIVED` (the spec's "Exit on CRLF not followed by whitespace →
back to URL_RECEIVED") is a transition of the step relation that is
none of the four claimed shapes. -/
theorem claim4_counterexample :
    MHD_REQUEST_URL_RECEIVED ∈ nextStates MHD_REQUEST_HEADER_PART_RECEIVED ∧
      ¬ fourShapeTransition MHD_REQUEST_HEADER_PART_RECEIVED MHD_REQUEST_URL_RECEIVED := by
  decide

/-- C4 (amended): every transition of the request step relation is one
of six shapes: the numeric successor `state + 1`, the keep-alive reset
`FOOTERS_SENT → INIT`, the fatal `any → CLOSED`, the upgrade hand-off
`HEADERS_SENT → UPGRADE`, or one of the two parser continuation
returns `HEADER_PART_RECEIVED → URL_RECEIVED` and
`FOOTER_PART_RECEIVED → BODY_RECEIVED`. -/
theorem claim4_transition_shapes :
    ∀ s t : MHD_REQUEST_STATE, t ∈ nextStates s →
      fourShapeTransition s t ∨
        (s = MHD_REQUEST_HEADER_PART_RECEIVED ∧ t = MHD_REQUEST_URL_RECEIVED) ∨
        (s = MHD_REQUEST_FOOTER_PART_RECEIVED ∧ t = MHD_REQUEST_BODY_RECEIVED) := by
  decide

/-- Witness for C4: the transition out of the initial state is covered
by the shape list. -/
theorem claim4_transition_shapes_witness :
    fourShapeTransition MHD_REQUEST_INIT MHD_REQUEST_URL_RECEIVED ∨
      (MHD_REQUEST_INIT = MHD_REQUEST_HEADER_PART_RECEIVED ∧
        MHD_REQUEST_URL_RECEIVED = MHD_REQUEST_URL_RECEIVED) ∨
      (MHD_REQUEST_INIT = MHD_REQUEST_FOOTER_PART_RECEIVED ∧
        MHD_REQUEST_URL_RECEIVED = MHD_REQUEST_BODY_RECEIVED) :=
  claim4_transition_shapes MHD_REQUEST_INIT MHD_REQUEST_URL_RECEIVED (by decide)

/-- C5 counterexample: the state enumeration of internal.h does not
have twenty states: without the optional `MHD_REQUEST_UPGRADE` it has
twenty-one (`MHD_REQUEST_INIT` = 0 through `MHD_REQUEST_IN_CLEANUP` =
20) and twenty-two with it; moreover the optional `UPGRADE` state is a
sink, so it is a second state without outgoing transitions besides
`IN_CLEANUP`. -/
theorem claim5_counterexample :
    (Finset.univ.filter fun s : MHD_REQUEST_STATE => s ≠ MHD_REQUEST_UPGRADE).card ≠ 20 ∧
      Fintype.card MHD_REQUEST_STATE ≠ 20 ∧
      (Finset.univ.filter fun s : MHD_REQUEST_STATE => s ≠ MHD_REQUEST_UPGRADE).card = 21 ∧
      Fintype.card MHD_REQUEST_STATE = 22 ∧
      nextStates MHD_REQUEST_UPGRADE = [] := by
  decide

/-- C5 (amended): the request state machine has twenty-one states
without upgrade support (twenty-two with the optional `UPGRADE`
state); the initial state is `INIT` (numeric value 0, and the
keep-alive reset returns to it); no transition leaves `IN_CLEANUP`,
and every state other than `IN_CLEANUP` and the optional `UPGRADE`
sink has at least one outgoing transition. -/
theorem claim5_states :
    (Finset.univ.filter fun s : MHD_REQUEST_STATE => s ≠ MHD_REQUEST_UPGRADE).card = 21 ∧
      Fintype.card MHD_REQUEST_STATE = 22 ∧
      requestStateNum MHD_REQUEST_INIT = 0 ∧
      MHD_REQUEST_INIT ∈ nextStates MHD_REQUEST_FOOTERS_SENT ∧
      nextStates MHD_REQUEST_IN_CLEANUP = [] ∧
      ∀ s : MHD_REQUEST_STATE, s ≠ MHD_REQUEST_IN_CLEANUP → s ≠ MHD_REQUEST_UPGRADE →
        nextStates s ≠ [] := by
  decide

/-- Witness for C5: the initial state has an outgoing transition. -/
theorem claim5_states_witness : nextStates MHD_REQUEST_INIT ≠ [] :=
  claim5_states.2.2.2.2.2 MHD_REQUEST_INIT (by decide) (by decide)

/-- C6 counterexample: on the pool lifecycle documented in internal.h,
a keep-alive boundary (end of request, then first read of the next
request) destroys the pool and creates a fresh one: after
`firstRead, requestEnd, firstRead` the connection has performed two
pool acquisitions and the live pool differs from the one that served
the first request — refuting "acquired once per connection" and "the
same region serves the next request". -/
theorem claim6_counterexample :
    poolRun [.firstRead] = ⟨some 0, 1⟩ ∧
      poolRun [.firstRead, .requestEnd] = ⟨none, 1⟩ ∧
      poolRun [.firstRead, .requestEnd, .firstRead] = ⟨some 1, 2⟩ ∧
      (poolRun [.firstRead, .requestEnd, .firstRead]).created ≠ 1 ∧
      (poolRun [.firstRead, .requestEnd, .firstRead]).pool ≠ (poolRun [.firstRead]).pool := by
  decide

/-- C6 (amended): the pool is created lazily on the first read from the
TCP stream (a first read with no live pool acquires a fresh pool and
counts a new acquisition; a read with a live pool leaves it untouched)
and is destroyed at the end of each request — the pool pointer is NULL
between requests, and the next request on the connection gets a fresh
re-created pool rather than the same region. -/
theorem claim6_pool_lifecycle :
    ∀ s : PoolLifecycle,
      (s.pool = none →
        poolStep s .firstRead = ⟨some s.created, s.created + 1⟩) ∧
      (∀ g : Nat, s.pool = some g → poolStep s .firstRead = s) ∧
      (poolStep s .requestEnd).pool = none := by
  intro s
  refine ⟨fun h => ?_, fun g h => ?_, rfl⟩
  · simp [poolStep, h]
  · simp [poolStep, h]

/-- Witness for C6: a fresh connection acquires pool generation 0 on
its first read. -/
theorem claim6_pool_lifecycle_witness :
    poolStep poolInitial .firstRead = ⟨some 0, 1⟩ :=
  (claim6_pool_lifecycle poolInitial).1 rfl

theorem foldl_requestAddHeader (hs : List MHD_HTTP_Header) (acc : List MHD_HTTP_Header) :
    List.foldl requestAddHeader acc hs = acc ++ hs := by
  induction hs generalizing acc with
  | nil => simp
  | cons h t ih => simp [requestAddHeader, ih]

theorem foldl_responseAddHeader (hs : List MHD_HTTP_Header) (acc : List MHD_HTTP_Header) :
    List.foldl responseAddHeader acc hs = hs.reverse ++ acc := by
  induction hs generalizing acc with
  | nil => simp
  | cons h t ih => simp [responseAddHeader, ih]

/-- C7 counterexample: adding first `("A", "1")` and then `("B", "2")`
to a response's header list yields the list in the reverse of the
insertion order (internal.h: the response list is initially created in
inverse order), so response header entries are not traversed in append
(insertion) order. -/
theorem claim7_counterexample :
    responseAddHeader (responseAddHeader [] ⟨"A", "1"⟩) ⟨"B", "2"⟩ =
        [⟨"B", "2"⟩, ⟨"A", "1"⟩] ∧
      responseAddHeader (responseAddHeader [] ⟨"A", "1"⟩) ⟨"B", "2"⟩ ≠
        [⟨"A", "1"⟩, ⟨"B", "2"⟩] := by
  decide

/-- C7 (amended): for every sequence of header additions, duplicates
included, the request's received-header list (head plus tail pointer)
holds exactly the insertion sequence in append order, while the
response's header list holds exactly the reverse of the insertion
sequence (it is created in inverse order, to be inverted before
sending); in both cases duplicate names are permitted and no entry is
dropped or reordered beyond that. -/
theorem claim7_header_list_order :
    ∀ hs : List MHD_HTTP_Header,
      List.foldl requestAddHeader [] hs = hs ∧
        List.foldl responseAddHeader [] hs = hs.reverse := by
  intro hs
  simp [foldl_requestAddHeader, foldl_responseAddHeader]

theorem bufInv_initial : bufInv bufInitial := by
  refine ⟨Nat.le_refl 0, Nat.le_refl 0, Nat.le_refl 0⟩

theorem bufInv_applyBufOp (b : ReqBuffers) (op : BufOp) (h : bufInv b) :
    bufInv (applyBufOp b op) := by
  obtain ⟨h1, h2, h3⟩ := h
  cases op <;> simp [applyBufOp, bufInv] <;> omega

theorem bufInv_foldl (ops : List BufOp) (b : ReqBuffers) (h : bufInv b) :
    bufInv (List.foldl applyBufOp b ops) := by
  induction ops generalizing b with
  | nil => exact h
  | cons op t ih => exact ih (applyBufOp b op) (bufInv_applyBufOp b op h)

/-- C8: after every sequence of buffer operations on a fresh request
the cursors satisfy `read_buffer_offset ≤ read_buffer_size` and
`write_buffer_send_offset ≤ write_buffer_append_offset ≤
write_buffer_size`; moreover each single operation preserves the
invariant from any state satisfying it. -/
theorem claim8_buffer_cursor_invariant :
    (∀ ops : List BufOp, bufInv (runBufOps ops)) ∧
      ∀ (b : ReqBuffers) (op : BufOp), bufInv b → bufInv (applyBufOp b op) := by
  exact ⟨fun ops => bufInv_foldl ops bufInitial bufInv_initial,
    fun b op h => bufInv_applyBufOp b op h⟩

/-- Witness for C8: one receive of five bytes into a fresh request
keeps the cursors inside their bounds. -/
theorem claim8_buffer_cursor_invariant_witness :
    bufInv (applyBufOp bufInitial (.recvBytes 5)) :=
  claim8_buffer_cursor_invariant.2 bufInitial (.recvBytes 5) bufInv_initial

/-- C9: the parser scratch fields `last` and `colon` influence the
header-line processing step only in `HEADER_PART_RECEIVED` and
`FOOTER_PART_RECEIVED`: in every other state the step's result is
independent of the scratch values (no operation reads them), while in
`HEADER_PART_RECEIVED` a folded continuation line does read `last`
(two scratch values give two different results). -/
theorem claim9_parser_scratch_isolation :
    (∀ (st : MHD_REQUEST_STATE) (s1 s2 : ParserScratch) (line : String),
      st ≠ MHD_REQUEST_HEADER_PART_RECEIVED → st ≠ MHD_REQUEST_FOOTER_PART_RECEIVED →
        processHeaderLine st s1 line = processHeaderLine st s2 line) ∧
      processHeaderLine MHD_REQUEST_HEADER_PART_RECEIVED ⟨"X", 0⟩ " y" ≠
        processHeaderLine MHD_REQUEST_HEADER_PART_RECEIVED ⟨"Z", 0⟩ " y" := by
  constructor
  · intro st s1 s2 line h1 h2
    simp [processHeaderLine, h1, h2]
  · decide

/-- Witness for C9: in the `INIT` state (request-line parsing) the
result of the line-processing step does not depend on the scratch
fields. -/
theorem claim9_parser_scratch_isolation_witness :
    processHeaderLine MHD_REQUEST_INIT ⟨"a", 0⟩ "Host: x" =
      processHeaderLine MHD_REQUEST_INIT ⟨"b", 7⟩ "Host: x" :=
  claim9_parser_scratch_isolation.1 MHD_REQUEST_INIT ⟨"a", 0⟩ ⟨"b", 7⟩ "Host: x"
    (by decide) (by decide)

/-- C10: the request-dispatch callback of the test is invoked more than
once per request: on the first invocation `con_cls` still holds its
initial null value and the handler defers, returning `MHD_YES` without
queuing and storing its marker; the stored value is passed back on the
second invocation, which queues the response — so one invocation never
completes the request (fuel 1 runs out) while two do, for a total of
exactly two invocations. -/
theorem claim10_dispatch_two_invocations :
    ahcEcho true .null = ⟨true, false, .ptr⟩ ∧
      ahcEcho true .ptr = ⟨true, true, .null⟩ ∧
      dispatchRun 1 .null 0 = none ∧
      dispatchRun 5 .null 0 = some (2, .null) := by
  decide

end MHD
